import Mathlib

/-!
Verification of the vidocq username-probing tool (src/main.rs, src/checker.rs,
src/sites.rs) against its natural-language specification.

The Rust code is shallowly embedded: strings become `List Char` (the data the
checker manipulates is ASCII, so Rust's byte indices coincide with character
indices and `to_lowercase` coincides with ASCII case mapping), every fallible
or panicking operation (the `&s[a..b]` title slices) goes through an
`Option`-returning checked slice, and the network is an explicit oracle
(`SendOutcome` / `Env`).  The two regex-driven detectors of checker.rs
(the capture loops of `check_js_redirects`, lines 50-129, and of the
meta-refresh scan, lines 713-728) are kept as abstract function parameters
(`jsDeep` / `metaDeep`) guarded by the exact textual gates the code runs
first; everything else is transcribed from the source.
-/

set_option maxHeartbeats 1000000

namespace Vidocq

/-- Characters of a Rust string. The embedding works over character lists,
which for the ASCII data the checker handles agrees with Rust's byte view. -/
abbrev Str := List Char

/-- Apostrophe character, built numerically. -/
def sq : Char := Char.ofNat 39

/-- Double-quote character, built numerically. -/
def dq : Char := Char.ofNat 34

/-- Rust `str::to_lowercase`, restricted to the ASCII case mapping. -/
def lower (s : Str) : Str := s.map Char.toLower

/-- Rust `str::contains` with a string needle. -/
def containsStr : Str → Str → Bool
  | [], needle => needle.isEmpty
  | c :: rest, needle => needle.isPrefixOf (c :: rest) || containsStr rest needle

/-- Helper for Rust `str::find`: index of the first occurrence of `needle`,
counting from `i`. -/
def firstOccurAux : Str → Str → Nat → Option Nat
  | [], needle, i => if needle.isEmpty then some i else none
  | c :: rest, needle, i =>
    if needle.isPrefixOf (c :: rest) then some i else firstOccurAux rest needle (i + 1)

/-- Rust `str::find` with a string needle. -/
def firstOccur (hay needle : Str) : Option Nat := firstOccurAux hay needle 0

/-- Rust slicing `&s[a..b]`, modelled as a checked operation: `none` models the
panic on an out-of-bounds range. -/
def sliceChecked (s : Str) (a b : Nat) : Option Str :=
  if a ≤ b ∧ b ≤ s.length then some ((s.drop a).take (b - a)) else none

/-- Rust `str::trim` (ASCII whitespace). -/
def trim (s : Str) : Str :=
  ((s.dropWhile Char.isWhitespace).reverse.dropWhile Char.isWhitespace).reverse

/-- Rust `str::split` on a single character. -/
def splitOnChar (sep : Char) : Str → List Str
  | [] => [[]]
  | c :: rest =>
    if c = sep then [] :: splitOnChar sep rest
    else
      match splitOnChar sep rest with
      | [] => [[c]]
      | s :: ss => (c :: s) :: ss

/-- Helper for `replaceAll`: the scan fuelled by the remaining length (each
step consumes at least one character, so fuel equal to the string length
never runs out); the fuel keeps the definition structurally recursive and
kernel-reducible. -/
def replaceAllFuel (pat rep : Str) : Nat → Str → Str
  | 0, s => s
  | _ + 1, [] => []
  | fuel + 1, c :: rest =>
    if pat ≠ [] ∧ pat.isPrefixOf (c :: rest) then
      rep ++ replaceAllFuel pat rep fuel ((c :: rest).drop pat.length)
    else
      c :: replaceAllFuel pat rep fuel rest

/-- Rust `str::replace (pat, rep)`: replace every occurrence of `pat`. -/
def replaceAll (pat rep s : Str) : Str := replaceAllFuel pat rep s.length s

theorem isPrefixOf_length {p l : Str} (h : p.isPrefixOf l = true) :
    p.length ≤ l.length := by
  induction p generalizing l with
  | nil => simp
  | cons a as ih =>
    cases l with
    | nil => simp [List.isPrefixOf] at h
    | cons b bs =>
      simp only [List.isPrefixOf, Bool.and_eq_true] at h
      simpa using ih h.2

theorem isPrefixOf_exists {p l : Str} (h : p.isPrefixOf l = true) :
    ∃ t, l = p ++ t := by
  induction p generalizing l with
  | nil => exact ⟨l, rfl⟩
  | cons a as ih =>
    cases l with
    | nil => simp [List.isPrefixOf] at h
    | cons b bs =>
      simp only [List.isPrefixOf, Bool.and_eq_true, beq_iff_eq] at h
      obtain ⟨t, ht⟩ := ih h.2
      exact ⟨t, by simp [h.1, ht]⟩

theorem firstOccurAux_spec :
    ∀ (hay needle : Str) (i j : Nat), firstOccurAux hay needle i = some j →
      i ≤ j ∧ j ≤ i + hay.length ∧ needle.isPrefixOf (hay.drop (j - i)) = true := by
  intro hay
  induction hay with
  | nil =>
    intro needle i j h
    simp only [firstOccurAux] at h
    by_cases he : needle.isEmpty
    · simp [he] at h
      subst h
      simp [List.isPrefixOf, List.isEmpty_iff.mp he]
    · simp [he] at h
  | cons c rest ih =>
    intro needle i j h
    simp only [firstOccurAux] at h
    by_cases hp : needle.isPrefixOf (c :: rest) = true
    · simp [hp] at h
      subst h
      simpa using hp
    · simp [hp] at h
      obtain ⟨h1, h2, h3⟩ := ih needle (i + 1) j h
      refine ⟨by omega, by simp; omega, ?_⟩
      have : j - i = (j - (i + 1)) + 1 := by omega
      rw [this]
      simpa using h3

theorem firstOccur_startsAt {hay needle : Str} {j : Nat}
    (h : firstOccur hay needle = some j) :
    needle.isPrefixOf (hay.drop j) = true := by
  have := firstOccurAux_spec hay needle 0 j h
  simpa using this.2.2

theorem firstOccur_le {hay needle : Str} {j : Nat}
    (h : firstOccur hay needle = some j) :
    j + needle.length ≤ hay.length := by
  have hs := firstOccurAux_spec hay needle 0 j h
  have hj : j ≤ hay.length := by have := hs.2.1; omega
  have hp := firstOccur_startsAt h
  have := isPrefixOf_length hp
  simp only [List.length_drop] at this
  omega

def titleOpenTag : Str := "<title>".data

def titleCloseTag : Str := "</title>".data

/-- If `<title>` occurs at `ts` and `</title>` occurs at `te > ts`, the
occurrences cannot overlap: `ts + 7 ≤ te`.  This is the fact that keeps the
unguarded-looking slice `&body[ts + 7..te]` of `contains_not_found_message`
(checker.rs lines 969-984) inside bounds. -/
theorem title_overlap {body : Str} {ts te : Nat}
    (h1 : firstOccur body titleOpenTag = some ts)
    (h2 : firstOccur body titleCloseTag = some te)
    (hlt : ts < te) : ts + 7 ≤ te := by
  by_contra hc
  push_neg at hc
  obtain ⟨r, hr⟩ := isPrefixOf_exists (firstOccur_startsAt h1)
  obtain ⟨u, hu⟩ := isPrefixOf_exists (firstOccur_startsAt h2)
  set k := te - ts with hk
  have hk1 : 1 ≤ k := by omega
  have hk6 : k ≤ 6 := by omega
  have hdrop : body.drop te = (body.drop ts).drop k := by
    rw [List.drop_drop]
    congr 1
    omega
  rw [hr, hu] at hdrop
  have hlen : k ≤ titleOpenTag.length := by simp [titleOpenTag]; omega
  rw [List.drop_append_of_le_length hlen] at hdrop
  interval_cases k <;> simp [titleOpenTag, titleCloseTag] at hdrop

/-- The title extraction of check_site_specific and the 200/403 arms of
check_url (guard `title_start + 7 < title_end`): `some none` when the tags are
absent or the guard fails, `some (some t)` with the slice otherwise; the outer
`none` (a slice panic) never happens. -/
def titleStrict (body : Str) : Option (Option Str) :=
  match firstOccur body titleOpenTag, firstOccur body titleCloseTag with
  | some ts, some te =>
    if ts + 7 < te then (sliceChecked body (ts + 7) te).map some
    else some none
  | _, _ => some none

/-- The title extraction of contains_not_found_message (guard
`title_end > title_start` only, checker.rs lines 969-984). -/
def titleLoose (body : Str) : Option (Option Str) :=
  match firstOccur body titleOpenTag, firstOccur body titleCloseTag with
  | some ts, some te =>
    if ts < te then (sliceChecked body (ts + 7) te).map some
    else some none
  | _, _ => some none

theorem titleStrict_isSome (body : Str) : ∃ t, titleStrict body = some t := by
  unfold titleStrict
  cases h1 : firstOccur body titleOpenTag with
  | none => exact ⟨none, rfl⟩
  | some ts =>
    cases h2 : firstOccur body titleCloseTag with
    | none => exact ⟨none, rfl⟩
    | some te =>
      by_cases hg : ts + 7 < te
      · have hb : te ≤ body.length := by
          have := firstOccur_le h2
          simp [titleCloseTag] at this
          omega
        simp [hg, sliceChecked, Nat.le_of_lt hg, hb]
      · simp [hg]

theorem titleLoose_isSome (body : Str) : ∃ t, titleLoose body = some t := by
  unfold titleLoose
  cases h1 : firstOccur body titleOpenTag with
  | none => exact ⟨none, rfl⟩
  | some ts =>
    cases h2 : firstOccur body titleCloseTag with
    | none => exact ⟨none, rfl⟩
    | some te =>
      by_cases hg : ts < te
      · have hov := title_overlap h1 h2 hg
        have hb : te ≤ body.length := by
          have := firstOccur_le h2
          simp [titleCloseTag] at this
          omega
        simp [hg, sliceChecked, hov, hb]
      · simp [hg]

/-! ## Data model (checker.rs lines 6-24, sites.rs lines 3-8) -/

inductive CheckResult where
  | Found
  | NotFound
  | Error (msg : Str)
  | Timeout
deriving DecidableEq, Inhabited

structure Site where
  name : Str
  url : Str
  category : Str
deriving DecidableEq, Inhabited

structure SiteResult where
  site : Str
  url : Str
  category : Str
  result : CheckResult
deriving DecidableEq, Inhabited

/-- Outcome of one `client.get(url).send().await` (or of the Discord POST):
either the reqwest error branch (with its timeout flag and message text), or a
completed response carrying status code, final URL after redirect following,
the parseable `Location` header if any (`none` also covers a header whose
`to_str` fails, which the code treats identically), and the body text —
`none` models `response.text()` failing, which the code maps to `""` via
`unwrap_or_default`. -/
inductive SendOutcome where
  | sendErr (isTimeout : Bool) (msg : Str)
  | response (status : Nat) (finalUrl : Str) (location : Option Str) (bodyRead : Option Str)

/-- The ambient effects of a probe run: the HTTP transport as an oracle from
request URL to outcome, the Discord API outcome, and the two regex-driven
detectors of checker.rs left abstract (see `check_js_redirects` and
`metaRefreshCheck`). -/
structure Env where
  transport : Str → SendOutcome
  discord : SendOutcome
  jsDeep : Str → Str → Str → Option CheckResult
  metaDeep : Str → Str → Option CheckResult

/-! ## Pattern constants (strings containing apostrophes are assembled from
`sq` because the embedding avoids apostrophe characters in literals) -/

/-- Build `a ++ "'" ++ b`. -/
def apos1 (a b : String) : Str := a.data ++ sq :: b.data

def ogTitleDq : Str := "property=\"og:title\"".data

def ogTitleSq : Str := ("property=".data ++ [sq]) ++ "og:title".data ++ [sq]

def metaRefreshGateDq : Str := "http-equiv=\"refresh\"".data

def metaRefreshGateSq : Str := ("http-equiv=".data ++ [sq]) ++ "refresh".data ++ [sq]

def spaDivAppSq : Str := ("<div id=".data ++ [sq]) ++ "app".data ++ [sq] ++ "></div>".data

def idRootSq : Str := ("id=".data ++ [sq]) ++ "root".data ++ [sq]

/-! ## Pre-dispatch checks of check_url -/

/-- checker.rs lines 644-648: Cloudflare browser-verification challenge
markers. -/
def cloudflareMarker (body_lower : Str) : Bool :=
  containsStr body_lower "attention required".data ||
  containsStr body_lower "just a moment".data ||
  containsStr body_lower "checking your browser".data ||
  (containsStr body_lower "cloudflare".data && containsStr body_lower "cf-challenge".data)

def cloudflareErrorMsg : Str := "Cloudflare protection (cannot verify)".data

/-- checker.rs lines 656-659: the early eBay security/captcha body patterns. -/
def ebayEarlySecurity (body_lower : Str) : Bool :=
  containsStr body_lower "security measure".data ||
  containsStr body_lower "captcha_form".data ||
  containsStr body_lower "please verify yourself".data ||
  containsStr body_lower "verify yourself to continue".data

/-- checker.rs lines 41-130.  The quick gate of lines 43-48 is transcribed
exactly; the regex capture loops behind it (lines 50-129) are the abstract
`deep` parameter, reachable only through the gate. -/
def check_js_redirects (html username finalUrl : Str)
    (deep : Str → Str → Str → Option CheckResult) : Option CheckResult :=
  let html_lower := lower html
  if !containsStr html_lower "location".data &&
     !containsStr html_lower "redirect".data &&
     !containsStr html_lower "window".data then
    none
  else deep html username finalUrl

def jsPatterns : List Str :=
  [ "location.href=\"".data,
    "location.href=".data ++ [sq],
    "window.location=\"".data,
    "window.location=".data ++ [sq],
    "window.location.href=\"".data,
    "window.location.href=".data ++ [sq] ]

/-- checker.rs lines 692-706: one iteration of the redirect-target scan. -/
def jsFallbackHit (body_lower username_lower pattern : Str) : Bool :=
  match firstOccur body_lower pattern with
  | none => false
  | some pos =>
    let after := body_lower.drop (pos + pattern.length)
    match after.findIdx? (fun c => c == dq || c == sq || c == ';') with
    | none => false
    | some e =>
      let target := after.take e
      !containsStr target username_lower &&
        (containsStr target "/404".data || containsStr target "/not-found".data ||
         containsStr target "/error".data)

/-- checker.rs lines 670-708: the plain-text fallback scan for JavaScript
redirects; the only verdict it can produce is NotFound. -/
def jsFallbackCheck (body_lower username_lower : Str) : Option CheckResult :=
  if containsStr body_lower "window.location".data ||
     containsStr body_lower "location.href".data then
    if containsStr body_lower "/404".data || containsStr body_lower "/not-found".data ||
       containsStr body_lower "location.href.*404".data ||
       containsStr body_lower "window.location.*404".data then
      some .NotFound
    else if (containsStr body_lower "location.href".data ||
             containsStr body_lower "window.location".data) &&
            jsPatterns.any (jsFallbackHit body_lower username_lower) then
      some .NotFound
    else none
  else none

/-- checker.rs lines 710-733.  The regex capture loop of lines 713-728 is the
abstract `metaDeep`; the textual gate and the plain fallback of lines 729-732
are transcribed. -/
def metaRefreshCheck (body_text body_lower username_lower : Str)
    (metaDeep : Str → Str → Option CheckResult) : Option CheckResult :=
  if containsStr body_lower metaRefreshGateDq || containsStr body_lower metaRefreshGateSq then
    match metaDeep body_text username_lower with
    | some r => some r
    | none =>
      if containsStr body_lower "/404".data || containsStr body_lower "/not-found".data then
        some .NotFound
      else none
  else none

/-- checker.rs lines 546-570: classification of a 3xx response from the
`Location` header. -/
def redirection3xx (url_lower username : Str) (location : Option Str) : CheckResult :=
  match location with
  | some loc =>
    let location_lower := lower loc
    let username_lower := lower username
    if containsStr url_lower username_lower && !containsStr location_lower username_lower then
      .NotFound
    else if containsStr location_lower "404".data ||
            containsStr location_lower "not-found".data ||
            containsStr location_lower "/error".data then
      .NotFound
    else .Found
  | none => .Found

/-- checker.rs lines 572-637: the final-URL-changed analysis.  `none` means
the block falls through to the body analysis; the only verdict it can produce
is NotFound. -/
def redirectDiffCheck (url finalUrl username : Str) : Option CheckResult :=
  if finalUrl = url then none
  else
    let url_lower := lower url
    let final_url_lower := lower finalUrl
    let username_lower := lower username
    if containsStr final_url_lower "404".data ||
       containsStr final_url_lower "not-found".data ||
       containsStr final_url_lower "/error".data ||
       containsStr final_url_lower "page-not-found".data ||
       containsStr final_url_lower "notfound".data ||
       containsStr final_url_lower "user-not-found".data ||
       containsStr final_url_lower "/not_found".data ||
       containsStr final_url_lower "/error".data then
      some .NotFound
    else if containsStr url_lower "giphy.com".data &&
            containsStr final_url_lower "/explore/".data then
      some .NotFound
    else
      let url_path := (splitOnChar '/' url).drop 3
      let final_path := (splitOnChar '/' finalUrl).drop 3
      if (url_path.length ≠ final_path.length ∧ 0 < url_path.length) ∧
         url_path.any (fun seg => containsStr seg username) = true ∧
         final_path.any (fun seg => containsStr seg username) = false then
        some .NotFound
      else if containsStr url_lower username_lower &&
              !containsStr final_url_lower username_lower then
        some .NotFound
      else
        let original_domain := (splitOnChar '/' url).getD 2 []
        let final_domain := (splitOnChar '/' finalUrl).getD 2 []
        if (original_domain ≠ final_domain ∧ original_domain ≠ [] ∧ final_domain ≠ []) ∧
           containsStr final_url_lower username_lower = false then
          some .NotFound
        else none

theorem redirectDiffCheck_cases (url finalUrl username : Str) :
    redirectDiffCheck url finalUrl username = none ∨
    redirectDiffCheck url finalUrl username = some .NotFound := by
  unfold redirectDiffCheck
  dsimp only
  repeat' split
  all_goals simp

theorem jsFallbackCheck_cases (body_lower username_lower : Str) :
    jsFallbackCheck body_lower username_lower = none ∨
    jsFallbackCheck body_lower username_lower = some .NotFound := by
  unfold jsFallbackCheck
  dsimp only
  repeat' split
  all_goals simp

theorem metaRefreshCheck_cases (body_text body_lower username_lower : Str)
    (metaDeep : Str → Str → Option CheckResult)
    (h : metaDeep body_text username_lower = none) :
    metaRefreshCheck body_text body_lower username_lower metaDeep = none ∨
    metaRefreshCheck body_text body_lower username_lower metaDeep = some .NotFound := by
  unfold metaRefreshCheck
  rw [h]
  repeat' split
  all_goals simp_all

/-! ## check_site_specific (checker.rs lines 132-460) -/

def scriptOpen : Str := "<script".data

def scriptClose : Str := "</script>".data

def styleOpen : Str := "<style".data

def styleClose : Str := "</style>".data

/-- checker.rs lines 169-176: the while-loop removing `<script>…</script>`
ranges with replace_range; each iteration removes a non-empty range, so the
loop terminates on the shrinking length. -/
def stripScriptLoop (s : Str) : Str :=
  match h1 : firstOccur s scriptOpen with
  | none => s
  | some start =>
    match firstOccur (s.drop start) scriptClose with
    | none => s
    | some e =>
      stripScriptLoop (s.take start ++ s.drop (min (start + e + 9) s.length))
termination_by s.length
decreasing_by
  have hb := firstOccur_le h1
  have h7 : scriptOpen.length = 7 := rfl
  simp only [List.length_append, List.length_take, List.length_drop]
  omega

/-- checker.rs lines 178-185: the analogous `<style>…</style>` removal loop. -/
def stripStyleLoop (s : Str) : Str :=
  match h1 : firstOccur s styleOpen with
  | none => s
  | some start =>
    match firstOccur (s.drop start) styleClose with
    | none => s
    | some e =>
      stripStyleLoop (s.take start ++ s.drop (min (start + e + 8) s.length))
termination_by s.length
decreasing_by
  have hb := firstOccur_le h1
  have h6 : styleOpen.length = 6 := rfl
  simp only [List.length_append, List.length_take, List.length_drop]
  omega

/-- Sequencing of the site-specific blocks: a panic propagates, the first
block that returns a verdict wins, otherwise control falls to the next
block. -/
def orJoin (a : Option (Option CheckResult)) (b : Unit → Option (Option CheckResult)) :
    Option (Option CheckResult) :=
  match a with
  | none => none
  | some (some r) => some (some r)
  | some none => b ()

/-- checker.rs lines 147-193 (Badoo). -/
def badooCheck (url_lower final_url_lower body_lower username_lower : Str) :
    Option (Option CheckResult) :=
  if containsStr url_lower "badoo.com".data || containsStr final_url_lower "badoo.com".data then
    (titleStrict body_lower).map fun tt =>
      let username_in_title := match tt with
        | some t => containsStr t username_lower
        | none => false
      let username_in_og_title := containsStr body_lower ogTitleDq &&
        containsStr body_lower username_lower
      let text_content := stripStyleLoop (stripScriptLoop body_lower)
      let username_in_content := containsStr text_content username_lower
      if !username_in_title && !username_in_og_title && !username_in_content then
        some .NotFound
      else none
  else some none

/-- checker.rs lines 195-221 (Glitch). -/
def glitchCheck (url_lower final_url_lower body_lower username_lower : Str) :
    Option (Option CheckResult) :=
  if containsStr url_lower "glitch.com".data || containsStr final_url_lower "glitch.com".data then
    (titleStrict body_lower).map fun tt =>
      let title_is_generic := match tt with
        | some t => containsStr t "glitch: the friendly community".data ||
            (containsStr t "glitch".data && !containsStr t username_lower)
        | none => false
      let og_title_is_generic := containsStr body_lower ogTitleDq &&
        (containsStr body_lower "glitch: the friendly community".data ||
         (!containsStr body_lower username_lower &&
          containsStr body_lower ogTitleDq &&
          containsStr body_lower "glitch".data))
      if title_is_generic || og_title_is_generic then some .NotFound else none
  else some none

/-- checker.rs lines 223-271 (TopCoder). -/
def topcoderCheck (url_lower final_url_lower body_lower username_lower : Str) :
    Option (Option CheckResult) :=
  if containsStr url_lower "topcoder.com".data ||
     containsStr final_url_lower "topcoder.com".data then
    (titleStrict body_lower).map fun title_text =>
      let has_meta_refresh := containsStr body_lower metaRefreshGateDq ||
        containsStr body_lower metaRefreshGateSq
      let refreshes_to_profiles := containsStr body_lower "profiles.topcoder.com".data
      let second : Option CheckResult :=
        if containsStr final_url_lower "profiles.topcoder.com".data then
          match title_text with
          | some title =>
            if (containsStr title "topcoder".data && !containsStr title username_lower) ||
               containsStr title "top technology talent".data then some .NotFound
            else none
          | none => none
        else none
      if has_meta_refresh && refreshes_to_profiles then
        match title_text with
        | some title =>
          if (containsStr title "topcoder".data && !containsStr title username_lower) ||
             containsStr title "top technology talent".data ||
             trim title == "topcoder".data then some .NotFound
          else second
        | none => some .NotFound
      else second
  else some none

/-- checker.rs lines 273-283 (AngelList/Wellfound). -/
def angelCheck (url_lower final_url_lower body_lower : Str) (status : Nat) :
    Option (Option CheckResult) :=
  if containsStr url_lower "angel.co".data then
    if containsStr final_url_lower "wellfound.com".data then
      if status == 403 || containsStr body_lower "please enable js".data ||
         decide (body_lower.length < 1000) then
        some (some .NotFound)
      else some none
    else some none
  else some none

/-- checker.rs lines 285-321 (eBay). -/
def ebayCheck (url_lower final_url_lower body body_lower username_lower : Str) :
    Option (Option CheckResult) :=
  if containsStr url_lower "ebay.com".data || containsStr final_url_lower "ebay.com".data then
    if containsStr body_lower "security measure".data ||
       containsStr body_lower "security | ebay".data ||
       containsStr body_lower "captcha_form".data ||
       containsStr body_lower "id=captcha_form".data ||
       containsStr body_lower "please verify yourself".data ||
       containsStr body_lower "verify yourself to continue".data ||
       containsStr body_lower "service unavailable".data then
      some (some .NotFound)
    else
      let username_in_url_path :=
        containsStr final_url_lower ("/usr/".data ++ username_lower) ||
        containsStr url_lower ("/usr/".data ++ username_lower)
      let username_in_content :=
        containsStr body_lower ('>' :: username_lower ++ "</".data) ||
        containsStr body_lower ('>' :: username_lower ++ "</a>".data) ||
        containsStr body_lower ('>' :: username_lower ++ "</h".data) ||
        containsStr body_lower ('>' :: username_lower ++ "</span>".data) ||
        (containsStr body_lower ogTitleDq && containsStr body_lower username_lower)
      if username_in_url_path && !username_in_content then some (some .NotFound)
      else if decide (body.length < 5000) && !username_in_content then some (some .NotFound)
      else some none
  else some none

/-- checker.rs lines 323-347 (Etsy). -/
def etsyCheck (url_lower final_url_lower body_lower username_lower : Str) :
    Option (Option CheckResult) :=
  if containsStr url_lower "etsy.com".data || containsStr final_url_lower "etsy.com".data then
    (titleStrict body_lower).map fun tt =>
      let title_has_username := match tt with
        | some t => containsStr t username_lower
        | none => false
      let username_in_content :=
        containsStr body_lower ("/shop/".data ++ username_lower) ||
        containsStr body_lower ('>' :: username_lower ++ "</".data) ||
        (containsStr body_lower ogTitleDq && containsStr body_lower username_lower)
      if !title_has_username && !username_in_content then some .NotFound else none
  else some none

/-- checker.rs lines 349-368 (Steam). -/
def steamCheck (url_lower final_url_lower body_lower username_lower : Str) :
    Option (Option CheckResult) :=
  if containsStr url_lower "steamcommunity.com".data ||
     containsStr final_url_lower "steamcommunity.com".data then
    if containsStr body_lower "profile not found".data ||
       containsStr body_lower "could not find".data ||
       containsStr body_lower "invalid profile".data ||
       containsStr body_lower "profile error".data then
      some (some .NotFound)
    else
      let username_in_profile :=
        containsStr body_lower ("profile/".data ++ username_lower) ||
        containsStr body_lower ("id/".data ++ username_lower) ||
        containsStr body_lower ('>' :: username_lower ++ "</".data)
      if !username_in_profile && decide (body_lower.length < 50000) then
        some (some .NotFound)
      else some none
  else some none

/-- checker.rs lines 370-404 (Instagram). -/
def instagramCheck (url_lower final_url_lower body_lower username_lower : Str) :
    Option (Option CheckResult) :=
  if containsStr url_lower "instagram.com".data ||
     containsStr final_url_lower "instagram.com".data then
    if containsStr body_lower (apos1 "sorry, this page isn" "t available") ||
       containsStr body_lower (apos1 "page isn" "t available") ||
       containsStr body_lower "user not found".data then
      some (some .NotFound)
    else
      (titleStrict body_lower).map fun tt =>
        let has_og_title := containsStr body_lower ogTitleDq ||
          containsStr body_lower ogTitleSq
        let username_in_og_title := has_og_title && containsStr body_lower username_lower
        let title_has_username := match tt with
          | some t => containsStr t username_lower
          | none => false
        if !username_in_og_title && !title_has_username then some .NotFound else none
  else some none

/-- checker.rs lines 406-424 (Threads). -/
def threadsCheck (url_lower final_url_lower body_lower username_lower : Str) :
    Option (Option CheckResult) :=
  if containsStr url_lower "threads.net".data ||
     containsStr final_url_lower "threads.net".data then
    if containsStr body_lower "page not found".data ||
       containsStr body_lower (apos1 "content isn" "t available") ||
       containsStr body_lower (apos1 "this page isn" "t available") ||
       (containsStr body_lower "threads".data && !containsStr body_lower username_lower &&
        decide (body_lower.length < 30000)) then
      some (some .NotFound)
    else
      let username_in_meta :=
        (containsStr body_lower ogTitleDq || containsStr body_lower ogTitleSq) &&
        containsStr body_lower username_lower
      if !username_in_meta && containsStr body_lower "threads".data then
        some (some .NotFound)
      else some none
  else some none

/-- checker.rs lines 426-437 (Weibo). -/
def weiboCheck (url_lower final_url_lower body_lower username_lower : Str) :
    Option (Option CheckResult) :=
  if containsStr url_lower "weibo.com".data || containsStr final_url_lower "weibo.com".data then
    let username_in_content :=
      containsStr body_lower ('>' :: username_lower ++ "</".data) ||
      containsStr body_lower ('/' :: username_lower ++ "</".data) ||
      (containsStr body_lower ogTitleDq && containsStr body_lower username_lower)
    if !username_in_content && decide (body_lower.length < 20000) then
      some (some .NotFound)
    else some none
  else some none

/-- checker.rs lines 439-457 (Battle.net). -/
def battlenetCheck (url_lower final_url_lower body_lower username_lower : Str) :
    Option (Option CheckResult) :=
  if containsStr url_lower "blizzard.com".data ||
     containsStr final_url_lower "blizzard.com".data ||
     containsStr url_lower "battle.net".data ||
     containsStr final_url_lower "battle.net".data then
    if containsStr body_lower "page not found".data ||
       containsStr body_lower "invalid".data ||
       containsStr body_lower "error".data ||
       (decide (body_lower.length < 10000) && !containsStr body_lower username_lower) then
      some (some .NotFound)
    else
      let username_in_content :=
        containsStr body_lower ('>' :: username_lower ++ "</".data) ||
        containsStr body_lower ('/' :: username_lower ++ "</".data)
      if !username_in_content && decide (body_lower.length < 15000) then
        some (some .NotFound)
      else some none
  else some none

/-- checker.rs lines 134-460: dispatch through the site-specific blocks in
source order. -/
def check_site_specific (url body body_lower username final_url : Str) (status : Nat) :
    Option (Option CheckResult) :=
  let username_lower := lower username
  let final_url_lower := lower final_url
  let url_lower := lower url
  orJoin (badooCheck url_lower final_url_lower body_lower username_lower) fun _ =>
  orJoin (glitchCheck url_lower final_url_lower body_lower username_lower) fun _ =>
  orJoin (topcoderCheck url_lower final_url_lower body_lower username_lower) fun _ =>
  orJoin (angelCheck url_lower final_url_lower body_lower status) fun _ =>
  orJoin (ebayCheck url_lower final_url_lower body body_lower username_lower) fun _ =>
  orJoin (etsyCheck url_lower final_url_lower body_lower username_lower) fun _ =>
  orJoin (steamCheck url_lower final_url_lower body_lower username_lower) fun _ =>
  orJoin (instagramCheck url_lower final_url_lower body_lower username_lower) fun _ =>
  orJoin (threadsCheck url_lower final_url_lower body_lower username_lower) fun _ =>
  orJoin (weiboCheck url_lower final_url_lower body_lower username_lower) fun _ =>
  battlenetCheck url_lower final_url_lower body_lower username_lower

/-- The values a site-specific block may take: abstain, or a definite
NotFound, never a panic. -/
def OkNF (x : Option (Option CheckResult)) : Prop :=
  x = some none ∨ x = some (some .NotFound)

theorem orJoin_OkNF {a : Option (Option CheckResult)}
    {b : Unit → Option (Option CheckResult)} (ha : OkNF a) (hb : OkNF (b ())) :
    OkNF (orJoin a b) := by
  rcases ha with h | h
  · simpa [orJoin, h, OkNF] using hb
  · simp [orJoin, h, OkNF]

theorem badooCheck_OkNF (a b c d : Str) : OkNF (badooCheck a b c d) := by
  unfold badooCheck
  split
  · obtain ⟨tt, htt⟩ := titleStrict_isSome c
    rw [htt]
    simp only [Option.map_some']
    unfold OkNF
    split <;> simp
  · simp [OkNF]

theorem glitchCheck_OkNF (a b c d : Str) : OkNF (glitchCheck a b c d) := by
  unfold glitchCheck
  split
  · obtain ⟨tt, htt⟩ := titleStrict_isSome c
    rw [htt]
    simp only [Option.map_some']
    unfold OkNF
    split <;> simp
  · simp [OkNF]

theorem topcoderCheck_OkNF (a b c d : Str) : OkNF (topcoderCheck a b c d) := by
  unfold topcoderCheck
  split
  · obtain ⟨tt, htt⟩ := titleStrict_isSome c
    rw [htt]
    simp only [Option.map_some']
    unfold OkNF
    dsimp only
    repeat' split
    all_goals simp
  · simp [OkNF]

theorem angelCheck_OkNF (a b c : Str) (s : Nat) : OkNF (angelCheck a b c s) := by
  unfold angelCheck OkNF
  repeat' split
  all_goals simp

theorem ebayCheck_OkNF (a b c d e : Str) : OkNF (ebayCheck a b c d e) := by
  unfold ebayCheck OkNF
  dsimp only
  repeat' split
  all_goals simp

theorem etsyCheck_OkNF (a b c d : Str) : OkNF (etsyCheck a b c d) := by
  unfold etsyCheck
  split
  · obtain ⟨tt, htt⟩ := titleStrict_isSome c
    rw [htt]
    simp only [Option.map_some']
    unfold OkNF
    split <;> simp
  · simp [OkNF]

theorem steamCheck_OkNF (a b c d : Str) : OkNF (steamCheck a b c d) := by
  unfold steamCheck OkNF
  dsimp only
  repeat' split
  all_goals simp

theorem instagramCheck_OkNF (a b c d : Str) : OkNF (instagramCheck a b c d) := by
  unfold instagramCheck
  split
  · split
    · simp [OkNF]
    · obtain ⟨tt, htt⟩ := titleStrict_isSome c
      rw [htt]
      simp only [Option.map_some']
      unfold OkNF
      split <;> simp
  · simp [OkNF]

theorem threadsCheck_OkNF (a b c d : Str) : OkNF (threadsCheck a b c d) := by
  unfold threadsCheck OkNF
  dsimp only
  repeat' split
  all_goals simp

theorem weiboCheck_OkNF (a b c d : Str) : OkNF (weiboCheck a b c d) := by
  unfold weiboCheck OkNF
  dsimp only
  repeat' split
  all_goals simp

theorem battlenetCheck_OkNF (a b c d : Str) : OkNF (battlenetCheck a b c d) := by
  unfold battlenetCheck OkNF
  dsimp only
  repeat' split
  all_goals simp

theorem check_site_specific_OkNF (url body body_lower username final_url : Str)
    (status : Nat) : OkNF (check_site_specific url body body_lower username final_url status) := by
  unfold check_site_specific
  dsimp only
  apply orJoin_OkNF (badooCheck_OkNF _ _ _ _)
  apply orJoin_OkNF (glitchCheck_OkNF _ _ _ _)
  apply orJoin_OkNF (topcoderCheck_OkNF _ _ _ _)
  apply orJoin_OkNF (angelCheck_OkNF _ _ _ _)
  apply orJoin_OkNF (ebayCheck_OkNF _ _ _ _ _)
  apply orJoin_OkNF (etsyCheck_OkNF _ _ _ _)
  apply orJoin_OkNF (steamCheck_OkNF _ _ _ _)
  apply orJoin_OkNF (instagramCheck_OkNF _ _ _ _)
  apply orJoin_OkNF (threadsCheck_OkNF _ _ _ _)
  apply orJoin_OkNF (weiboCheck_OkNF _ _ _ _)
  exact battlenetCheck_OkNF _ _ _ _

/-! ## contains_not_found_message (checker.rs lines 964-1139) -/

/-- checker.rs lines 987-1012 (`explicit_user_patterns`), including the
duplicate entry and the capitalised Wikipedia keys of the source. -/
def explicitUserPatterns : List Str :=
  [ "user not found".data,
    "account not found".data,
    "profile not found".data,
    "this user does not exist".data,
    "this account does not exist".data,
    "user does not exist".data,
    "account does not exist".data,
    "no such user".data,
    "username does not exist".data,
    "this user does not exist".data,
    "user profile not found".data,
    "the user you are looking for".data,
    apos1 "doesn" "t have an account",
    "could not find user".data,
    "unable to find user".data,
    "not a registered user".data,
    "user not registered".data,
    "no account associated".data,
    apos1 "couldn" "t find this account",
    apos1 "this account doesn" "t exist",
    "page does not exist".data,
    "redlink".data,
    "wgArticleId\":0".data,
    "wgCurRevisionId\":0".data ]

/-- checker.rs lines 1032-1045 (`common_404_phrases`). -/
def common404Phrases : List Str :=
  [ "the page you requested was not found".data,
    "the requested url was not found".data,
    "the requested page cannot be found".data,
    apos1 "the page you" "re looking for cannot be found",
    "the page you are looking for does not exist".data,
    "page you".data ++ sq :: "re looking for doesn".data ++ sq :: "t exist".data,
    apos1 "we couldn" "t find that page",
    apos1 "we can" "t find that page",
    "unfortunately the page you were looking for".data,
    apos1 "sorry, we couldn" "t find that",
    "the link you followed may be broken".data,
    apos1 "sorry, this page isn" "t available" ]

/-- checker.rs lines 964-1139.  The early returns of the source are flattened
into an else-if chain; `matches("404").count() > 0` is containment of "404",
which its conjunct already checks. -/
def contains_not_found_message (body : Str) (is_spa : Bool) : Option Bool :=
  (titleLoose (lower body)).map fun tt =>
    let body_lower := lower body
    let body_len := body.length
    let has_404_in_title := match tt with
      | some title_content =>
        containsStr title_content "404".data ||
        containsStr title_content "page not found".data ||
        containsStr title_content "not found".data
      | none => false
    let has_explicit_user_not_found := explicitUserPatterns.any (containsStr body_lower)
    if has_explicit_user_not_found then true
    else
      let has_404_with_context := containsStr body_lower "404".data &&
        (containsStr body_lower "page not found".data ||
         containsStr body_lower "not found".data ||
         containsStr body_lower "error".data ||
         containsStr body_lower "chan".data ||
         containsStr body_lower (apos1 "couldn" "t find") ||
         containsStr body_lower (apos1 "can" "t find"))
      let has_common_404_phrase := common404Phrases.any (containsStr body_lower)
      let has_prominent_404 := containsStr body_lower ">404<".data ||
        containsStr body_lower "> 404 <".data ||
        containsStr body_lower "\"404\"".data ||
        containsStr body_lower (sq :: "404".data ++ [sq]) ||
        (containsStr body_lower "<h1>".data && containsStr body_lower "404".data &&
         containsStr body_lower "404".data) ||
        (containsStr body_lower "<h2>".data && containsStr body_lower "404".data &&
         containsStr body_lower "404".data)
      let has_404_image := containsStr body_lower "404.png".data ||
        containsStr body_lower "404.jpg".data ||
        containsStr body_lower "404.jpeg".data ||
        containsStr body_lower "404.gif".data ||
        containsStr body_lower "404.svg".data ||
        containsStr body_lower "404.webp".data ||
        containsStr body_lower "/404/".data ||
        containsStr body_lower "/not-found/".data ||
        containsStr body_lower "error-404".data ||
        containsStr body_lower "404-error".data ||
        containsStr body_lower "alt=\"404\"".data ||
        containsStr body_lower ("alt=".data ++ sq :: "404".data ++ [sq]) ||
        containsStr body_lower "alt=\"not found\"".data ||
        containsStr body_lower ("alt=".data ++ sq :: "not found".data ++ [sq]) ||
        containsStr body_lower "alt=\"page not found\"".data ||
        containsStr body_lower ("alt=".data ++ sq :: "page not found".data ++ [sq]) ||
        containsStr body_lower "404_not_found".data ||
        (containsStr body_lower "not_found".data && containsStr body_lower ".png".data) ||
        (containsStr body_lower "not_found".data && containsStr body_lower ".jpg".data)
      let is_spa_shell_detected :=
        (containsStr body_lower "<div id=\"app\"></div>".data ||
         containsStr body_lower spaDivAppSq ||
         containsStr body_lower "id=\"root\"".data ||
         containsStr body_lower idRootSq ||
         containsStr body_lower "react-root".data ||
         containsStr body_lower "__next".data) &&
        decide (body_len > 500) && !has_404_in_title && !has_explicit_user_not_found
      if (is_spa || is_spa_shell_detected) && !has_explicit_user_not_found &&
         !has_prominent_404 && !has_404_image then
        has_404_in_title || has_explicit_user_not_found || has_404_image
      else if has_404_in_title then true
      else if has_prominent_404 || has_404_image then true
      else if has_404_with_context && decide (body_len < 300) then true
      else if has_404_with_context && decide (body_len < 1000) && has_common_404_phrase then true
      else if decide (body_len < 400) &&
              (has_common_404_phrase || containsStr body_lower "page not found".data) then true
      else if decide (body_len < 1200) && has_common_404_phrase &&
              containsStr body_lower "not found".data &&
              (containsStr body_lower "404".data || has_404_in_title) then true
      else false

theorem contains_not_found_message_isSome (body : Str) (is_spa : Bool) :
    ∃ b, contains_not_found_message body is_spa = some b := by
  unfold contains_not_found_message
  obtain ⟨tt, htt⟩ := titleLoose_isSome (lower body)
  rw [htt]
  exact ⟨_, rfl⟩

/-! ## The status-code dispatch (checker.rs lines 755-961) -/

/-- Display of an HTTP status in the source's `format!` error strings.  The
http crate renders a StatusCode as the numeric code followed by the canonical
reason phrase; no settled claim depends on that text, and the model keeps
the digits. -/
def statusDisplay (status : Nat) : Str := (toString status).data

/-- checker.rs lines 755-961: the `match status.as_u16()` of check_url,
transcribed arm by arm in source order.  The second `302 | 301 | 307 | 308`
arm of the source (line 921) is unreachable (the first arm at line 867 wins)
and the Rust compiler discards it, so it is not modelled. -/
def statusDispatch (url finalUrl username siteName : Str) (status : Nat)
    (body_text : Str) : Option CheckResult :=
  let url_lower := lower url
  let final_url_lower := lower finalUrl
  let username_lower := lower username
  let body_lower := lower body_text
  if status = 503 then
    if containsStr final_url_lower "ebay.com".data ||
       containsStr url_lower "ebay.com".data then
      some .NotFound
    else some (.Error "Service temporarily unavailable (503)".data)
  else if status = 200 then
    if containsStr final_url_lower "wikipedia.org".data &&
       (containsStr body_lower "page does not exist".data ||
        containsStr body_lower "redlink".data ||
        containsStr body_lower "\"wgArticleId\":0".data ||
        containsStr body_lower "\"wgCurRevisionId\":0".data) then
      some .NotFound
    else
      -- lines 779-792 of the source compute short-page conditions but contain
      -- no return: a no-op, not modelled.
      (contains_not_found_message body_lower false).bind fun is_not_found =>
      if is_not_found then some .NotFound
      else
        let is_spa_shell := containsStr body_lower "<div id=\"app\"></div>".data ||
          containsStr body_lower spaDivAppSq ||
          containsStr body_lower "<div id=app></div>".data ||
          containsStr body_lower "<div id=\"app\">".data ||
          containsStr body_lower "id=\"root\"".data ||
          containsStr body_lower idRootSq ||
          containsStr body_lower "id=root".data ||
          containsStr body_lower "react-root".data ||
          containsStr body_lower "__next".data ||
          containsStr body_lower "__nuxt".data ||
          containsStr body_lower "next.js".data ||
          (containsStr body_lower "<script".data && containsStr body_lower "react".data &&
           decide (body_lower.length < 50000))
        if (containsStr final_url_lower "twitter.com".data ||
            containsStr url_lower "twitter.com".data ||
            containsStr final_url_lower "x.com".data ||
            containsStr url_lower "x.com".data) &&
           containsStr final_url_lower ('/' :: username_lower) then
          some .Found
        else if is_spa_shell && finalUrl = url then
          (titleStrict body_lower).bind fun tt =>
          let has_username_in_title := match tt with
            | some title =>
              containsStr title username_lower && !containsStr (lower title) "404".data
            | none => false
          let has_username_in_meta :=
            ((containsStr body_lower ogTitleDq || containsStr body_lower ogTitleSq) &&
             containsStr body_lower username_lower) ||
            containsStr body_lower ("content=\"".data ++ username_lower ++ [dq]) ||
            containsStr body_lower ("content=".data ++ sq :: username_lower ++ [sq])
          if !containsStr body_lower username_lower then some .NotFound
          else if !has_username_in_title && !has_username_in_meta then some .NotFound
          else some .Found
        else some .Found
  else if status = 302 ∨ status = 301 ∨ status = 307 ∨ status = 308 then
    if containsStr final_url_lower "/error".data ||
       containsStr final_url_lower "404".data ||
       containsStr final_url_lower "not-found".data then
      some .NotFound
    else if containsStr url_lower username_lower &&
            !containsStr final_url_lower username_lower then
      some .NotFound
    else some .Found
  else if status = 404 then some .NotFound
  else if status = 403 then
    if containsStr url_lower "twitter.com".data || containsStr url_lower "x.com".data then
      (titleStrict body_lower).bind fun tt =>
      let title_has_username := match tt with
        | some t => containsStr t username_lower
        | none => false
      let username_in_og_title :=
        (containsStr body_lower ogTitleDq || containsStr body_lower ogTitleSq) &&
        containsStr body_lower username_lower
      -- the source returns Found on both branches of its final if
      -- (checker.rs lines 904-910)
      if title_has_username || username_in_og_title ||
         containsStr body_lower ('/' :: username_lower ++ "</".data) then
        some .Found
      else some .Found
    else
      (contains_not_found_message body_lower false).map fun nf =>
      if nf then .NotFound else .Found
  else if status = 400 then
    (contains_not_found_message body_lower false).map fun nf =>
    if nf then .NotFound
    else .Error "HTTP 400 Bad Request (possibly requires authentication)".data
  else if status = 429 then
    some (.Error "HTTP 429 Rate Limited (try again later)".data)
  else if status = 520 ∨ status = 521 ∨ status = 522 ∨ status = 523 ∨ status = 524 then
    some (.Error ("HTTP ".data ++ statusDisplay status ++
      " Cloudflare Error (site may be temporarily unavailable)".data))
  else if status = 999 then
    some (.Error "HTTP 999 Anti-bot protection (requires authentication)".data)
  else
    (contains_not_found_message body_lower false).map fun nf =>
    if nf then .NotFound
    else if 200 ≤ status ∧ status ≤ 299 then .Found
    else if siteName = "MySpace".data ∨ siteName = "Ask.fm".data then
      .Error ("HTTP ".data ++ statusDisplay status ++
        " (site may be unavailable or requires SSL verification)".data)
    else .Error ("HTTP ".data ++ statusDisplay status)

theorem statusDispatch_isSome (url finalUrl username siteName : Str) (status : Nat)
    (body_text : Str) :
    ∃ r, statusDispatch url finalUrl username siteName status body_text = some r := by
  obtain ⟨nf, hnf⟩ := contains_not_found_message_isSome (lower body_text) false
  obtain ⟨tt, htt⟩ := titleStrict_isSome (lower body_text)
  rw [← Option.isSome_iff_exists]
  unfold statusDispatch
  dsimp only
  rw [hnf, htt]
  simp only [Option.some_bind, Option.map_some']
  simp only [apply_ite Option.isSome, Option.isSome_some, ite_self]

/-! ## check_url (checker.rs lines 522-962) -/

/-- checker.rs lines 735-746: the pre-dispatch Twitter/X shortcut. -/
def twitterPreCheck (url_lower final_url_lower username_lower : Str) (status : Nat) : Bool :=
  (containsStr url_lower "twitter.com".data ||
   containsStr final_url_lower "twitter.com".data ||
   containsStr url_lower "x.com".data ||
   containsStr final_url_lower "x.com".data) &&
  (status == 200) &&
  (containsStr final_url_lower ('/' :: username_lower) ||
   containsStr url_lower ('/' :: username_lower))

/-- checker.rs lines 639-961: everything after the body read.  `bodyRead =
none` models a failed `response.text()`, mapped to the empty string by
`unwrap_or_default`. -/
def afterBody (url username siteName : Str)
    (jsDeep : Str → Str → Str → Option CheckResult)
    (metaDeep : Str → Str → Option CheckResult)
    (status : Nat) (finalUrl : Str) (bodyRead : Option Str) : Option CheckResult :=
  let url_lower := lower url
  let body_text := bodyRead.getD []
  let body_lower := lower body_text
  let final_url_lower := lower finalUrl
  let username_lower := lower username
  if cloudflareMarker body_lower then
    some (.Error cloudflareErrorMsg)
  else if (containsStr final_url_lower "ebay.com".data ||
           containsStr url_lower "ebay.com".data) &&
          ebayEarlySecurity body_lower then
    some .NotFound
  else
    match check_js_redirects body_text username finalUrl jsDeep with
    | some r => some r
    | none =>
      match jsFallbackCheck body_lower username_lower with
      | some r => some r
      | none =>
        match metaRefreshCheck body_text body_lower username_lower metaDeep with
        | some r => some r
        | none =>
          if twitterPreCheck url_lower final_url_lower username_lower status then
            some .Found
          else
            match check_site_specific url body_text body_lower username finalUrl status with
            | none => none
            | some (some r) => some r
            | some none => statusDispatch url finalUrl username siteName status body_text

/-- checker.rs lines 522-962: classification of one completed or failed HTTP
exchange. -/
def checkUrl (url username siteName : Str)
    (jsDeep : Str → Str → Str → Option CheckResult)
    (metaDeep : Str → Str → Option CheckResult)
    (outcome : SendOutcome) : Option CheckResult :=
  match outcome with
  | .sendErr isTimeout emsg =>
    if isTimeout then some .Timeout
    else if containsStr emsg "dns error".data ||
            containsStr emsg "failed to lookup address".data then
      some (.Error "DNS error: Site may be down or domain changed".data)
    else if containsStr emsg "certificate verify failed".data ||
            containsStr emsg "SSL".data then
      some (.Error "SSL certificate error: Site may have certificate issues".data)
    else some (.Error ("Network error: ".data ++ emsg))
  | .response status finalUrl location bodyRead =>
    if 300 ≤ status ∧ status ≤ 399 then
      some (redirection3xx (lower url) username location)
    else
      match redirectDiffCheck url finalUrl username with
      | some r => some r
      | none => afterBody url username siteName jsDeep metaDeep status finalUrl bodyRead

theorem afterBody_isSome (url username siteName : Str)
    (jsDeep : Str → Str → Str → Option CheckResult)
    (metaDeep : Str → Str → Option CheckResult)
    (status : Nat) (finalUrl : Str) (bodyRead : Option Str) :
    ∃ r, afterBody url username siteName jsDeep metaDeep status finalUrl bodyRead = some r := by
  rw [← Option.isSome_iff_exists]
  unfold afterBody
  dsimp only
  repeat' split
  any_goals rfl
  any_goals (rename_i hcss
             have hOk := check_site_specific_OkNF url (bodyRead.getD [])
               (lower (bodyRead.getD [])) username finalUrl status
             unfold OkNF at hOk
             rcases hOk with h | h <;> rw [h] at hcss <;> cases hcss)
  all_goals (obtain ⟨r, hr⟩ := statusDispatch_isSome url finalUrl username siteName status
               (bodyRead.getD [])
             simp [hr])

theorem checkUrl_isSome (url username siteName : Str)
    (jsDeep : Str → Str → Str → Option CheckResult)
    (metaDeep : Str → Str → Option CheckResult)
    (outcome : SendOutcome) :
    ∃ r, checkUrl url username siteName jsDeep metaDeep outcome = some r := by
  rw [← Option.isSome_iff_exists]
  unfold checkUrl
  cases outcome with
  | sendErr t m =>
    dsimp only
    repeat' split
    all_goals rfl
  | response status finalUrl location bodyRead =>
    dsimp only
    repeat' split
    all_goals first
    | rfl
    | (obtain ⟨r, hr⟩ := afterBody_isSome url username siteName jsDeep metaDeep status
         finalUrl bodyRead
       simp [hr])

/-! ## check_account and the orchestrator -/

/-- checker.rs lines 1141-1244: the Discord username endpoint check. -/
def check_discord_username (env : Env) (username : Str) : SiteResult :=
  let url := "https://discord.com/users/".data ++ username
  match env.discord with
  | .sendErr _ emsg =>
    ⟨"Discord".data, url, "Social".data,
     .Error ("Unable to check Discord: ".data ++ emsg ++
       " (Discord uses user IDs, not usernames in URLs)".data)⟩
  | .response status _ _ bodyRead =>
    if status = 200 then
      let body := lower (bodyRead.getD [])
      if containsStr body "\"taken\":true".data ||
         containsStr body "username_taken".data ||
         containsStr body "\"available\":false".data then
        ⟨"Discord".data, url, "Social".data, .Found⟩
      else if containsStr body "\"taken\":false".data ||
              containsStr body "\"available\":true".data then
        ⟨"Discord".data, url, "Social".data, .NotFound⟩
      else
        ⟨"Discord".data, url, "Social".data,
         .Error "Discord uses user IDs, not usernames in URLs. Cannot reliably check without authentication.".data⟩
    else if status = 400 ∨ status = 422 then
      ⟨"Discord".data, url, "Social".data, .NotFound⟩
    else if status = 401 ∨ status = 403 then
      ⟨"Discord".data, url, "Social".data,
       .Error "Discord API requires authentication. Discord uses user IDs, not usernames in URLs.".data⟩
    else
      ⟨"Discord".data, url, "Social".data,
       .Error ("Discord API returned status: ".data ++ statusDisplay status ++
         " (Discord uses user IDs, not usernames in URLs)".data)⟩

/-- The `{}` placeholder of a catalog URL template. -/
def bracesPlaceholder : Str := "\x7b\x7d".data

def mixerErrorMsg : Str := "Mixer was shut down in 2020.".data

def spotifyArtistErrorMsg : Str := "Spotify Artist URLs use IDs, not usernames.".data

/-- checker.rs lines 462-519.  The final match of lines 493-518 rebuilds an
identical SiteResult for every verdict, modelled by the map. -/
def check_account (env : Env) (site : Site) (username : Str) : Option SiteResult :=
  if site.name = "Discord".data then some (check_discord_username env username)
  else if site.name = "Mixer".data then
    some ⟨site.name, replaceAll bracesPlaceholder username site.url, site.category,
      .Error mixerErrorMsg⟩
  else if site.name = "Spotify Artist".data then
    some ⟨site.name, replaceAll bracesPlaceholder username site.url, site.category,
      .Error spotifyArtistErrorMsg⟩
  else
    let url := replaceAll bracesPlaceholder username site.url
    (checkUrl url username site.name env.jsDeep env.metaDeep (env.transport url)).map
      fun r => ⟨site.name, url, site.category, r⟩

theorem check_account_isSome (env : Env) (site : Site) (username : Str) :
    ∃ r, check_account env site username = some r := by
  rw [← Option.isSome_iff_exists]
  unfold check_account
  dsimp only
  repeat' split
  all_goals first
  | rfl
  | (obtain ⟨r, hr⟩ := checkUrl_isSome (replaceAll bracesPlaceholder username site.url)
       username site.name env.jsDeep env.metaDeep
       (env.transport (replaceAll bracesPlaceholder username site.url))
     simp [hr])

/-- main.rs lines 60-74: one check_account per catalog entry, all results
collected.  Completion order is unconstrained at runtime; the model keeps
catalog order, and the claims settled against it are order-independent. -/
def runProbe (env : Env) (sites : List Site) (username : Str) : Option (List SiteResult) :=
  sites.mapM fun site => check_account env site username

/-! ## Report assembly (main.rs lines 79-111) -/

def isFound (r : SiteResult) : Bool :=
  match r.result with | .Found => true | _ => false

def isNotFound (r : SiteResult) : Bool :=
  match r.result with | .NotFound => true | _ => false

def isError (r : SiteResult) : Bool :=
  match r.result with | .Error _ => true | _ => false

/-- The comparator of main.rs lines 94-95:
`a.category.cmp(&b.category).then(a.site.cmp(&b.site))` is not-Greater, i.e.
lexicographic (category, site) order. -/
def keyLe (a b : SiteResult) : Bool :=
  decide (toLex (a.category, a.site) ≤ toLex (b.category, b.site))

/-- main.rs lines 79-82 and 94: the Found section of the human-readable
report — filtered then sorted with Rust's stable `sort_by`, modelled by
`mergeSort` with the same comparator. -/
def foundSection (results : List SiteResult) : List SiteResult :=
  (results.filter isFound).mergeSort keyLe

/-- main.rs lines 84-87 and 95: the NotFound section, filtered then sorted. -/
def notFoundSection (results : List SiteResult) : List SiteResult :=
  (results.filter isNotFound).mergeSort keyLe

/-- main.rs lines 89-92: error results are filtered but never sorted. -/
def errorSection (results : List SiteResult) : List SiteResult :=
  results.filter isError

/-- main.rs lines 108-111: JSON mode serializes `results` in collection
order, without any sort. -/
def jsonReport (results : List SiteResult) : List SiteResult := results

theorem keyLe_trans (a b c : SiteResult) (h1 : keyLe a b = true) (h2 : keyLe b c = true) :
    keyLe a c = true := by
  simp only [keyLe, decide_eq_true_eq] at *
  exact le_trans h1 h2

theorem keyLe_total (a b : SiteResult) : (keyLe a b || keyLe b a) = true := by
  simp only [keyLe, Bool.or_eq_true, decide_eq_true_eq]
  exact le_total _ _

/-! ## Helper lemmas for the claim theorems -/

theorem toLower_idem (c : Char) : c.toLower.toLower = c.toLower := by
  unfold Char.toLower
  dsimp only
  by_cases h : c.toNat ≥ 65 ∧ c.toNat ≤ 90
  · rw [if_pos h]
    have hval : (c.toNat + 32).isValidChar := by
      left
      omega
    have htn : (Char.ofNat (c.toNat + 32)).toNat = c.toNat + 32 := by
      simp [Char.ofNat, hval]
      rfl
    rw [if_neg]
    rw [htn]
    omega
  · rw [if_neg h, if_neg h]

theorem lower_idem (s : Str) : lower (lower s) = lower s := by
  induction s with
  | nil => rfl
  | cons c t ih => simp_all [lower, toLower_idem]

/-- The 404 arm of the dispatch is NotFound for every body and URL. -/
theorem dispatch_404 (url finalUrl username siteName body : Str) :
    statusDispatch url finalUrl username siteName 404 body = some .NotFound := by
  simp [statusDispatch]

/-- A body whose lowering contains "account does not exist" trips the Tier-A
explicit-pattern scan. -/
theorem cnf_explicit (body : Str)
    (h : containsStr (lower body) "account does not exist".data = true) :
    contains_not_found_message body false = some true := by
  obtain ⟨tt, htt⟩ := titleLoose_isSome (lower body)
  unfold contains_not_found_message
  rw [htt]
  simp only [Option.map_some']
  have hany : explicitUserPatterns.any (containsStr (lower body)) = true :=
    List.any_eq_true.mpr ⟨"account does not exist".data, by decide, h⟩
  simp [hany]

/-- The 200 arm is NotFound whenever the lowered body carries the explicit
phrase, whatever else the body or URLs contain. -/
theorem dispatch_200_explicit (url finalUrl username siteName body : Str)
    (h : containsStr (lower body) "account does not exist".data = true) :
    statusDispatch url finalUrl username siteName 200 body = some .NotFound := by
  have h2 : containsStr (lower (lower body)) "account does not exist".data = true := by
    rwa [lower_idem]
  have hcnf := cnf_explicit (lower body) h2
  unfold statusDispatch
  dsimp only
  rw [if_neg (by norm_num), if_pos rfl]
  split
  · rfl
  · rw [hcnf]
    simp

/-- When the anti-bot marker is absent, the regex detectors abstain and the
Twitter shortcut does not fire, the body stage either reaches the status
dispatch or concludes NotFound on the way. -/
theorem afterBody_nf (url username siteName : Str)
    (jsDeep : Str → Str → Str → Option CheckResult)
    (metaDeep : Str → Str → Option CheckResult)
    (status : Nat) (finalUrl : Str) (bodyRead : Option Str)
    (h1 : cloudflareMarker (lower (bodyRead.getD [])) = false)
    (h2 : check_js_redirects (bodyRead.getD []) username finalUrl jsDeep = none)
    (h3 : metaDeep (bodyRead.getD []) (lower username) = none)
    (h4 : twitterPreCheck (lower url) (lower finalUrl) (lower username) status = false)
    (h5 : statusDispatch url finalUrl username siteName status (bodyRead.getD []) =
      some .NotFound) :
    afterBody url username siteName jsDeep metaDeep status finalUrl bodyRead =
      some .NotFound := by
  unfold afterBody
  dsimp only
  have hOk := check_site_specific_OkNF url (bodyRead.getD []) (lower (bodyRead.getD []))
    username finalUrl status
  unfold OkNF at hOk
  rcases jsFallbackCheck_cases (lower (bodyRead.getD [])) (lower username) with hf | hf <;>
  rcases metaRefreshCheck_cases (bodyRead.getD []) (lower (bodyRead.getD []))
    (lower username) metaDeep h3 with hm | hm <;>
  rcases hOk with hc | hc <;>
  rw [h2, hf] <;>
  simp only [h1, h4, hm, hc, h5] <;>
  repeat' split <;>
  simp_all

/-- When no stage between the body read and the status dispatch fires at all,
the body stage equals the status dispatch. -/
theorem afterBody_eq_dispatch (url username siteName : Str)
    (jsDeep : Str → Str → Str → Option CheckResult)
    (metaDeep : Str → Str → Option CheckResult)
    (status : Nat) (finalUrl : Str) (bodyRead : Option Str)
    (h1 : cloudflareMarker (lower (bodyRead.getD [])) = false)
    (hEbay : ((containsStr (lower finalUrl) "ebay.com".data ||
        containsStr (lower url) "ebay.com".data) &&
        ebayEarlySecurity (lower (bodyRead.getD []))) = false)
    (h2 : check_js_redirects (bodyRead.getD []) username finalUrl jsDeep = none)
    (hf : jsFallbackCheck (lower (bodyRead.getD [])) (lower username) = none)
    (hm : metaRefreshCheck (bodyRead.getD []) (lower (bodyRead.getD []))
      (lower username) metaDeep = none)
    (h4 : twitterPreCheck (lower url) (lower finalUrl) (lower username) status = false)
    (hc : check_site_specific url (bodyRead.getD []) (lower (bodyRead.getD []))
      username finalUrl status = some none) :
    afterBody url username siteName jsDeep metaDeep status finalUrl bodyRead =
      statusDispatch url finalUrl username siteName status (bodyRead.getD []) := by
  unfold afterBody
  dsimp only
  rw [h2, hf]
  simp only [h1, hEbay, h4, hm, hc]
  simp

/-! ## The claims -/

def noJsDeep : Str → Str → Str → Option CheckResult := fun _ _ _ => none

def noMetaDeep : Str → Str → Option CheckResult := fun _ _ => none

/-- An environment whose transport always fails and whose detectors abstain;
used to instantiate theorems at concrete inputs. -/
def envDefault : Env :=
  ⟨fun _ => .sendErr false [], .sendErr false [], noJsDeep, noMetaDeep⟩

/-- C9: the classifier is total and never throws: for every combination of
inputs (transport outcome with status code, final URL, Location header and
body, plus request URL, username, site name, and any behaviour of the two
abstract regex detectors) `checkUrl` returns `some` verdict — `none` would be
a panic, in particular an out-of-bounds title slice in
`contains_not_found_message` or `check_site_specific`, and the proof shows
the guards of those slices keep them in bounds (`title_overlap`). -/
theorem claim9_totality (url username siteName : Str)
    (jsDeep : Str → Str → Str → Option CheckResult)
    (metaDeep : Str → Str → Option CheckResult)
    (outcome : SendOutcome) :
    ∃ r, checkUrl url username siteName jsDeep metaDeep outcome = some r :=
  checkUrl_isSome url username siteName jsDeep metaDeep outcome

/-- C2 counterexample: a 404 exchange whose body is a Cloudflare challenge
page classifies as Error, not NotFound — the anti-bot body rule runs before
the status dispatch, so 404 is not unconditional in the body. -/
theorem claim2_counterexample :
    checkUrl "https://example.com/u/alice".data "alice".data "Example".data
      noJsDeep noMetaDeep
      (.response 404 "https://example.com/u/alice".data none
        (some "just a moment".data)) =
      some (.Error cloudflareErrorMsg) ∧
    checkUrl "https://example.com/u/alice".data "alice".data "Example".data
      noJsDeep noMetaDeep
      (.response 404 "https://example.com/u/alice".data none
        (some "just a moment".data)) ≠
      some .NotFound := by
  constructor
  · decide
  · decide

/-- C2 amended: a 404 exchange classifies as NotFound for every body, final
URL and Location header, provided the anti-bot body rule does not fire and
the two abstract regex detectors abstain — every other stage that can fire
first (redirect analysis, eBay security scan, plain-text JS fallback,
meta-refresh fallback, site-specific overrides) itself returns NotFound. -/
theorem claim2_amended (url username siteName finalUrl : Str)
    (jsDeep : Str → Str → Str → Option CheckResult)
    (metaDeep : Str → Str → Option CheckResult)
    (location : Option Str) (bodyRead : Option Str)
    (h1 : cloudflareMarker (lower (bodyRead.getD [])) = false)
    (h2 : check_js_redirects (bodyRead.getD []) username finalUrl jsDeep = none)
    (h3 : metaDeep (bodyRead.getD []) (lower username) = none) :
    checkUrl url username siteName jsDeep metaDeep
      (.response 404 finalUrl location bodyRead) = some .NotFound := by
  unfold checkUrl
  dsimp only
  rw [if_neg (by omega)]
  rcases redirectDiffCheck_cases url finalUrl username with hrd | hrd <;> rw [hrd]
  have h4 : twitterPreCheck (lower url) (lower finalUrl) (lower username) 404 = false := by
    simp [twitterPreCheck]
  exact afterBody_nf url username siteName jsDeep metaDeep 404 finalUrl bodyRead
    h1 h2 h3 h4 (dispatch_404 url finalUrl username siteName (bodyRead.getD []))

/-- C2 witness: a plain 404 with an empty body and equal URLs classifies
NotFound through the amended theorem. -/
theorem claim2_witness :
    cloudflareMarker (lower ((some ([] : Str)).getD [])) = false ∧
    checkUrl "https://example.com/u/alice".data "alice".data "Example".data
      noJsDeep noMetaDeep
      (.response 404 "https://example.com/u/alice".data none (some [])) =
      some .NotFound :=
  ⟨by decide,
    claim2_amended "https://example.com/u/alice".data "alice".data "Example".data
      "https://example.com/u/alice".data noJsDeep noMetaDeep none (some [])
      (by decide) (by decide) rfl⟩

/-- When the final URL differs from the request URL, the request URL contains
the (lowercased) username and the final URL does not, the redirect analysis
returns NotFound: every earlier branch of the block already returns NotFound
and the username-loss branch catches the rest. -/
theorem redirectDiff_userloss (url finalUrl username : Str) (hne : finalUrl ≠ url)
    (hu : containsStr (lower url) (lower username) = true)
    (hf : containsStr (lower finalUrl) (lower username) = false) :
    redirectDiffCheck url finalUrl username = some .NotFound := by
  unfold redirectDiffCheck
  rw [if_neg hne]
  dsimp only
  repeat' split
  all_goals simp_all

/-- C3 counterexample: a 301 response whose final URL differs and lost the
username, with no Location header, classifies Found — for 3xx statuses the
code inspects only the Location header and defaults to Found, so the claim's
NotFound does not hold for status 301. -/
theorem claim3_counterexample :
    (containsStr "https://site.example/users/alice".data "alice".data = true ∧
     containsStr "https://site.example/home".data "alice".data = false ∧
     "https://site.example/home".data ≠ "https://site.example/users/alice".data) ∧
    checkUrl "https://site.example/users/alice".data "alice".data "Example".data
      noJsDeep noMetaDeep
      (.response 301 "https://site.example/home".data none (some [])) =
      some .Found := by
  constructor
  · decide
  · decide

/-- C3 amended: the username-loss rule holds as claimed for status 200
(with containment read case-insensitively, as the code lowercases both
sides); for statuses 301 and 302 the classifier never consults the final
URL — it returns NotFound exactly when a Location header is present and the
username is absent from it. -/
theorem claim3_amended (url username siteName finalUrl : Str)
    (jsDeep : Str → Str → Str → Option CheckResult)
    (metaDeep : Str → Str → Option CheckResult)
    (location : Option Str) (bodyRead : Option Str)
    (hu : containsStr (lower url) (lower username) = true) :
    (finalUrl ≠ url → containsStr (lower finalUrl) (lower username) = false →
      checkUrl url username siteName jsDeep metaDeep
        (.response 200 finalUrl location bodyRead) = some .NotFound) ∧
    (∀ status : Nat, status = 301 ∨ status = 302 → ∀ loc : Str,
      containsStr (lower loc) (lower username) = false →
      checkUrl url username siteName jsDeep metaDeep
        (.response status finalUrl (some loc) bodyRead) = some .NotFound) := by
  constructor
  · intro hne hf
    unfold checkUrl
    dsimp only
    rw [if_neg (by omega), redirectDiff_userloss url finalUrl username hne hu hf]
  · intro status hstatus loc hloc
    unfold checkUrl
    dsimp only
    rw [if_pos (by rcases hstatus with h | h <;> omega)]
    unfold redirection3xx
    dsimp only
    rw [if_pos (by simp [hu, hloc])]

/-- C3 witness: the amended theorem applied at the spec's own example —
status 200 with the username lost from the final URL gives NotFound, and a
301 whose Location header lacks the username gives NotFound. -/
theorem claim3_witness :
    containsStr (lower "https://site.example/users/alice".data)
      (lower "alice".data) = true ∧
    checkUrl "https://site.example/users/alice".data "alice".data "Example".data
      noJsDeep noMetaDeep
      (.response 200 "https://site.example/home".data none (some [])) =
      some .NotFound ∧
    checkUrl "https://site.example/users/alice".data "alice".data "Example".data
      noJsDeep noMetaDeep
      (.response 301 "https://site.example/users/alice".data
        (some "/home".data) (some [])) = some .NotFound :=
  ⟨by decide,
   (claim3_amended "https://site.example/users/alice".data "alice".data
      "Example".data "https://site.example/home".data noJsDeep noMetaDeep none
      (some []) (by decide)).1 (by decide) (by decide),
   (claim3_amended "https://site.example/users/alice".data "alice".data
      "Example".data "https://site.example/users/alice".data noJsDeep noMetaDeep
      none (some []) (by decide)).2 301 (Or.inl rfl) "/home".data (by decide)⟩

/-- C4 counterexample: a 200 response whose body contains both "account does
not exist" and a Cloudflare challenge marker classifies as Error, not
NotFound — the anti-bot rule runs before the Tier-A body scan. -/
theorem claim4_counterexample :
    checkUrl "https://example.com/u/alice".data "alice".data "Example".data
      noJsDeep noMetaDeep
      (.response 200 "https://example.com/u/alice".data none
        (some "account does not exist just a moment".data)) =
      some (.Error cloudflareErrorMsg) ∧
    checkUrl "https://example.com/u/alice".data "alice".data "Example".data
      noJsDeep noMetaDeep
      (.response 200 "https://example.com/u/alice".data none
        (some "account does not exist just a moment".data)) ≠
      some .NotFound := by
  constructor
  · decide
  · decide

/-- C4 amended: a 200 exchange whose lowered body contains "account does not
exist" classifies NotFound provided the earlier stages do not divert to a
different verdict first: the anti-bot marker is absent, the abstract regex
detectors abstain, and the Twitter/X URL shortcut does not fire.  All other
intervening stages can only return NotFound themselves. -/
theorem claim4_amended (url username siteName finalUrl : Str)
    (jsDeep : Str → Str → Str → Option CheckResult)
    (metaDeep : Str → Str → Option CheckResult)
    (location : Option Str) (bodyRead : Option Str)
    (h1 : cloudflareMarker (lower (bodyRead.getD [])) = false)
    (h2 : check_js_redirects (bodyRead.getD []) username finalUrl jsDeep = none)
    (h3 : metaDeep (bodyRead.getD []) (lower username) = none)
    (h4 : twitterPreCheck (lower url) (lower finalUrl) (lower username) 200 = false)
    (h5 : containsStr (lower (bodyRead.getD []))
      "account does not exist".data = true) :
    checkUrl url username siteName jsDeep metaDeep
      (.response 200 finalUrl location bodyRead) = some .NotFound := by
  unfold checkUrl
  dsimp only
  rw [if_neg (by omega)]
  rcases redirectDiffCheck_cases url finalUrl username with hrd | hrd <;> rw [hrd]
  exact afterBody_nf url username siteName jsDeep metaDeep 200 finalUrl bodyRead
    h1 h2 h3 h4 (dispatch_200_explicit url finalUrl username siteName _ h5)

/-- C4 witness: a plain 200 whose body is exactly the Tier-A phrase
classifies NotFound through the amended theorem. -/
theorem claim4_witness :
    containsStr (lower "account does not exist".data)
      "account does not exist".data = true ∧
    checkUrl "https://example.com/u/alice".data "alice".data "Example".data
      noJsDeep noMetaDeep
      (.response 200 "https://example.com/u/alice".data none
        (some "account does not exist".data)) = some .NotFound :=
  ⟨by decide,
   claim4_amended "https://example.com/u/alice".data "alice".data "Example".data
     "https://example.com/u/alice".data noJsDeep noMetaDeep none
     (some "account does not exist".data)
     (by decide) (by decide) rfl (by decide) (by decide)⟩

/-- C6 counterexample: an exchange whose body carries the browser-challenge
marker but whose final URL lost the username classifies NotFound, not the
anti-bot Error — redirect-chain analysis runs before the anti-bot rule, so
the claimed precedence (anti-bot over redirect analysis) is reversed. -/
theorem claim6_counterexample :
    checkUrl "https://site.example/users/alice".data "alice".data "Example".data
      noJsDeep noMetaDeep
      (.response 200 "https://site.example/home".data none
        (some "just a moment".data)) = some .NotFound ∧
    checkUrl "https://site.example/users/alice".data "alice".data "Example".data
      noJsDeep noMetaDeep
      (.response 200 "https://site.example/home".data none
        (some "just a moment".data)) ≠ some (.Error cloudflareErrorMsg) := by
  constructor
  · decide
  · decide

/-- C6 amended: for every exchange the transport-level redirect analysis does
not settle first (status not 3xx and the final-URL analysis falls through), a
browser-verification marker in the body yields the anti-bot Error verdict
regardless of the status code; in the implemented cascade redirect analysis
precedes the anti-bot rule, not the other way round. -/
theorem claim6_amended (url username siteName : Str)
    (jsDeep : Str → Str → Str → Option CheckResult)
    (metaDeep : Str → Str → Option CheckResult)
    (status : Nat) (finalUrl : Str) (location : Option Str) (bodyRead : Option Str)
    (hstatus : ¬(300 ≤ status ∧ status ≤ 399))
    (hrd : redirectDiffCheck url finalUrl username = none)
    (hcf : cloudflareMarker (lower (bodyRead.getD [])) = true) :
    checkUrl url username siteName jsDeep metaDeep
      (.response status finalUrl location bodyRead) =
      some (.Error cloudflareErrorMsg) := by
  unfold checkUrl
  dsimp only
  rw [if_neg hstatus, hrd]
  unfold afterBody
  dsimp only
  rw [if_pos hcf]

/-- C6 witness: the amended theorem at a 404 exchange with equal URLs and a
"checking your browser" body — the Error verdict fires regardless of the
non-2xx status. -/
theorem claim6_witness :
    cloudflareMarker (lower "checking your browser".data) = true ∧
    checkUrl "https://example.com/u/alice".data "alice".data "Example".data
      noJsDeep noMetaDeep
      (.response 404 "https://example.com/u/alice".data none
        (some "checking your browser".data)) =
      some (.Error cloudflareErrorMsg) :=
  ⟨by decide,
   claim6_amended "https://example.com/u/alice".data "alice".data "Example".data
     noJsDeep noMetaDeep 404 "https://example.com/u/alice".data none
     (some "checking your browser".data) (by omega) (by decide) (by decide)⟩

/-- C7 counterexample: a 204 response is not classified like the same
exchange with status 200 — on an SPA shell body without the username, 200
yields NotFound (SPA reasoning) while 204 yields Found (generic success
arm), so 2xx codes other than 200 do not get the 200 arm's body analysis. -/
theorem claim7_counterexample :
    checkUrl "https://example.com/u/alice".data "alice".data "Example".data
      noJsDeep noMetaDeep
      (.response 200 "https://example.com/u/alice".data none
        (some "<div id=\"root\"></div>".data)) = some .NotFound ∧
    checkUrl "https://example.com/u/alice".data "alice".data "Example".data
      noJsDeep noMetaDeep
      (.response 204 "https://example.com/u/alice".data none
        (some "<div id=\"root\"></div>".data)) = some .Found ∧
    checkUrl "https://example.com/u/alice".data "alice".data "Example".data
      noJsDeep noMetaDeep
      (.response 204 "https://example.com/u/alice".data none
        (some "<div id=\"root\"></div>".data)) ≠
    checkUrl "https://example.com/u/alice".data "alice".data "Example".data
      noJsDeep noMetaDeep
      (.response 200 "https://example.com/u/alice".data none
        (some "<div id=\"root\"></div>".data)) := by
  refine ⟨by decide, by decide, ?_⟩
  decide

/-- C7 amended: a 2xx status other than 200 skips the 200 arm's Wikipedia,
SPA-shell and Twitter analyses and falls to the generic arm: when no earlier
stage fires, the verdict is NotFound if the body-content scan reports a
not-found message and Found otherwise. -/
theorem claim7_amended (url username siteName finalUrl : Str)
    (jsDeep : Str → Str → Str → Option CheckResult)
    (metaDeep : Str → Str → Option CheckResult)
    (status : Nat) (location : Option Str) (bodyRead : Option Str) (nf : Bool)
    (hstatus : 200 < status ∧ status ≤ 299)
    (hrd : redirectDiffCheck url finalUrl username = none)
    (h1 : cloudflareMarker (lower (bodyRead.getD [])) = false)
    (hEbay : ((containsStr (lower finalUrl) "ebay.com".data ||
        containsStr (lower url) "ebay.com".data) &&
        ebayEarlySecurity (lower (bodyRead.getD []))) = false)
    (h2 : check_js_redirects (bodyRead.getD []) username finalUrl jsDeep = none)
    (hf : jsFallbackCheck (lower (bodyRead.getD [])) (lower username) = none)
    (hm : metaRefreshCheck (bodyRead.getD []) (lower (bodyRead.getD []))
      (lower username) metaDeep = none)
    (hc : check_site_specific url (bodyRead.getD []) (lower (bodyRead.getD []))
      username finalUrl status = some none)
    (hnf : contains_not_found_message (lower (bodyRead.getD [])) false = some nf) :
    checkUrl url username siteName jsDeep metaDeep
      (.response status finalUrl location bodyRead) =
      some (if nf then .NotFound else .Found) := by
  have h4 : twitterPreCheck (lower url) (lower finalUrl) (lower username) status = false := by
    have hne : (status == 200) = false := by
      simp only [beq_eq_false_iff_ne, ne_eq]
      omega
    simp [twitterPreCheck, hne]
  unfold checkUrl
  dsimp only
  rw [if_neg (by omega), hrd]
  show afterBody url username siteName jsDeep metaDeep status finalUrl bodyRead = _
  rw [afterBody_eq_dispatch url username siteName jsDeep metaDeep status finalUrl
    bodyRead h1 hEbay h2 hf hm h4 hc]
  unfold statusDispatch
  dsimp only
  iterate 9 rw [if_neg (by omega)]
  rw [hnf]
  simp only [Option.map_some']
  cases nf with
  | true => simp
  | false =>
    simp only [Bool.false_eq_true, if_false]
    rw [if_pos ⟨by omega, hstatus.2⟩]

/-- C7 witness: a 204 exchange with an empty body and equal URLs takes the
generic arm of the amended theorem and classifies Found. -/
theorem claim7_witness :
    contains_not_found_message (lower (((some ([] : Str)).getD [])))
      false = some false ∧
    checkUrl "https://example.com/u/alice".data "alice".data "Example".data
      noJsDeep noMetaDeep
      (.response 204 "https://example.com/u/alice".data none (some [])) =
      some .Found :=
  ⟨by decide,
   claim7_amended "https://example.com/u/alice".data "alice".data "Example".data
     "https://example.com/u/alice".data noJsDeep noMetaDeep 204 none (some [])
     false (by omega) (by decide) (by decide) (by decide) (by decide) (by decide)
     rfl (by decide) (by decide)⟩

/-- C1: for every catalog, username, transport behaviour (any outcome per
URL, including timeouts, DNS and TLS failures) and any behaviour of the
abstract detectors, the probe run produces exactly one SiteResult per catalog
entry: the run never panics, its length equals the catalog's, and the i-th
result is the classification of the i-th entry (Forall₂); no entry is
dropped and no per-entry outcome aborts the run. -/
theorem claim1_coverage (env : Env) (sites : List Site) (username : Str) :
    ∃ rs, runProbe env sites username = some rs ∧ rs.length = sites.length ∧
      List.Forall₂ (fun site r => check_account env site username = some r) sites rs := by
  induction sites with
  | nil => exact ⟨[], rfl, rfl, List.Forall₂.nil⟩
  | cons s t ih =>
    obtain ⟨r, hr⟩ := check_account_isSome env s username
    obtain ⟨rs, hmap, hlen, hfa⟩ := ih
    refine ⟨r :: rs, ?_, by simp [hlen], List.Forall₂.cons hr hfa⟩
    unfold runProbe at hmap ⊢
    rw [List.mapM_cons]
    rw [hr, hmap]
    rfl

/-- checker.rs lines 462-486: the static exclusion list — sites whose
check_account returns a fixed Error without touching the network.  Discord is
special-cased too but goes through its API (check_discord_username), so it is
not part of this list. -/
def structurallyUnsuitable (site : Site) : Bool :=
  site.name == "Mixer".data || site.name == "Spotify Artist".data

/-- The fixed message of each excluded site (checker.rs lines 474 and 484). -/
def unsuitableErrorMsg (site : Site) : Str :=
  if site.name = "Mixer".data then mixerErrorMsg else spotifyArtistErrorMsg

/-- C8: every statically excluded target (Mixer, shut down; Spotify Artist,
identified by opaque IDs) returns Error with its fixed message, and the
result is the same under every environment — the check never consults the
transport, the Discord oracle or the detectors. -/
theorem claim8_static_exclusion (env env2 : Env) (site : Site) (username : Str)
    (h : structurallyUnsuitable site = true) :
    check_account env site username =
      some ⟨site.name, replaceAll bracesPlaceholder username site.url, site.category,
        .Error (unsuitableErrorMsg site)⟩ ∧
    check_account env site username = check_account env2 site username := by
  simp only [structurallyUnsuitable, Bool.or_eq_true, beq_iff_eq] at h
  have key : ∀ e : Env, check_account e site username =
      some ⟨site.name, replaceAll bracesPlaceholder username site.url, site.category,
        .Error (unsuitableErrorMsg site)⟩ := by
    intro e
    unfold check_account
    rcases h with h | h
    · rw [if_neg (by rw [h]; decide), if_pos h]
      unfold unsuitableErrorMsg
      rw [if_pos h]
    · rw [if_neg (by rw [h]; decide), if_neg (by rw [h]; decide), if_pos h]
      unfold unsuitableErrorMsg
      rw [if_neg (by rw [h]; decide)]
  exact ⟨key env, (key env).trans (key env2).symm⟩

def mixerSite : Site :=
  ⟨"Mixer".data, "https://mixer.com/\x7b\x7d".data, "Gaming".data⟩

/-- C8 witness: the Mixer entry under the always-failing environment returns
the fixed shutdown message. -/
theorem claim8_witness :
    structurallyUnsuitable mixerSite = true ∧
    check_account envDefault mixerSite "alice".data =
      some ⟨"Mixer".data, "https://mixer.com/alice".data, "Gaming".data,
        .Error mixerErrorMsg⟩ := by
  refine ⟨by decide, ?_⟩
  have h := (claim8_static_exclusion envDefault envDefault mixerSite "alice".data
    (by decide)).1
  rw [h]
  decide

/-- A request URL matching none of the checker's special-cased domains: no
Twitter/X shortcut and no site-specific override can fire on it. -/
def matchesNoSpecialCaseRule (url_lower : Str) : Bool :=
  !containsStr url_lower "twitter.com".data &&
  !containsStr url_lower "x.com".data &&
  !containsStr url_lower "badoo.com".data &&
  !containsStr url_lower "glitch.com".data &&
  !containsStr url_lower "topcoder.com".data &&
  !containsStr url_lower "angel.co".data &&
  !containsStr url_lower "ebay.com".data &&
  !containsStr url_lower "etsy.com".data &&
  !containsStr url_lower "steamcommunity.com".data &&
  !containsStr url_lower "instagram.com".data &&
  !containsStr url_lower "threads.net".data &&
  !containsStr url_lower "weibo.com".data &&
  !containsStr url_lower "blizzard.com".data &&
  !containsStr url_lower "battle.net".data

theorem containsStr_nil (pat : Str) : containsStr [] pat = pat.isEmpty := rfl

theorem lower_nil : lower ([] : Str) = [] := rfl

/-- On an empty body and equal, non-special URLs, the 200 arm lands on
Found: no Wikipedia marker, no not-found message, no SPA shell. -/
theorem dispatch_200_empty (url username siteName : Str)
    (h1 : containsStr (lower url) "twitter.com".data = false)
    (h2 : containsStr (lower url) "x.com".data = false) :
    statusDispatch url url username siteName 200 [] = some .Found := by
  unfold statusDispatch
  dsimp only
  rw [if_neg (by norm_num), if_pos rfl]
  rw [show contains_not_found_message (lower ([] : Str)) false = some false from by decide]
  simp +decide [lower_nil, containsStr_nil, h1, h2]

/-- C10: a failed body read is replaced by the empty string and never
surfaces as Error or Timeout: classifying with `bodyRead = none` equals
classifying with an empty body, and for a 200 response whose final URL equals
the request URL and whose URL matches no special-case rule the verdict is
Found. -/
theorem claim10_body_read_failure (url username siteName : Str)
    (jsDeep : Str → Str → Str → Option CheckResult)
    (metaDeep : Str → Str → Option CheckResult)
    (location : Option Str)
    (h : matchesNoSpecialCaseRule (lower url) = true) :
    checkUrl url username siteName jsDeep metaDeep (.response 200 url location none) =
      checkUrl url username siteName jsDeep metaDeep
        (.response 200 url location (some [])) ∧
    checkUrl url username siteName jsDeep metaDeep (.response 200 url location none) =
      some .Found := by
  simp only [matchesNoSpecialCaseRule, Bool.and_eq_true, Bool.not_eq_true'] at h
  obtain ⟨⟨⟨⟨⟨⟨⟨⟨⟨⟨⟨⟨⟨h1, h2⟩, h3⟩, h4⟩, h5⟩, h6⟩, h7⟩, h8⟩, h9⟩, h10⟩, h11⟩, h12⟩, h13⟩, h14⟩ := h
  have key : ∀ b : Option Str, b.getD [] = ([] : Str) →
      checkUrl url username siteName jsDeep metaDeep
        (.response 200 url location b) = some .Found := by
    intro b hb
    unfold checkUrl
    dsimp only
    rw [if_neg (by omega)]
    have hrd : redirectDiffCheck url url username = none := by
      unfold redirectDiffCheck
      rw [if_pos rfl]
    rw [hrd]
    show afterBody url username siteName jsDeep metaDeep 200 url b = _
    have hjs : check_js_redirects ([] : Str) username url jsDeep = none := by
      unfold check_js_redirects
      rw [if_pos (by decide)]
    have hcss : check_site_specific url [] [] username url 200 = some none := by
      unfold check_site_specific
      dsimp only
      simp [orJoin, badooCheck, glitchCheck, topcoderCheck, angelCheck, ebayCheck,
        etsyCheck, steamCheck, instagramCheck, threadsCheck, weiboCheck,
        battlenetCheck, h1, h2, h3, h4, h5, h6, h7, h8, h9, h10, h11, h12, h13, h14]
    have htw : twitterPreCheck (lower url) (lower url) (lower username) 200 = false := by
      simp [twitterPreCheck, h1, h2]
    have hfb : jsFallbackCheck (lower ([] : Str)) (lower username) = none := by
      unfold jsFallbackCheck
      rw [if_neg (by decide)]
    have hmr : metaRefreshCheck ([] : Str) (lower ([] : Str)) (lower username)
        metaDeep = none := by
      unfold metaRefreshCheck
      rw [if_neg (by decide)]
    rw [afterBody_eq_dispatch url username siteName jsDeep metaDeep 200 url b
      (by rw [hb]; decide) (by rw [hb]; simp +decide [h7]) (by rw [hb]; exact hjs)
      (by rw [hb]; exact hfb) (by rw [hb]; exact hmr) htw (by rw [hb]; exact hcss)]
    rw [hb]
    exact dispatch_200_empty url username siteName h1 h2
  exact ⟨(key none rfl).trans (key (some []) rfl).symm, key none rfl⟩

/-- C10 witness: a clean 200 response with an unreadable body classifies
Found. -/
theorem claim10_witness :
    matchesNoSpecialCaseRule (lower "https://example.com/testuser".data) = true ∧
    checkUrl "https://example.com/testuser".data "testuser".data "Example".data
      noJsDeep noMetaDeep
      (.response 200 "https://example.com/testuser".data none none) =
      some .Found :=
  ⟨by decide,
   (claim10_body_read_failure "https://example.com/testuser".data "testuser".data
     "Example".data noJsDeep noMetaDeep none (by decide)).2⟩

def exResultSocial : SiteResult :=
  ⟨"Zeta".data, "https://zeta.example/u".data, "Social".data, .Found⟩

def exResultArt : SiteResult :=
  ⟨"Alpha".data, "https://alpha.example/u".data, "Art".data, .Found⟩

/-- A completion-order result list that is not sorted by (category, site). -/
def exResults : List SiteResult := [exResultSocial, exResultArt]

/-- C5 counterexample: in JSON output mode the report handed to the formatter
is the collection-order list itself, and it is not sorted by
(category, site-name) — so the final report is not sorted in every output
mode. -/
theorem claim5_counterexample :
    jsonReport exResults = exResults ∧
    ¬ List.Pairwise (fun a b => keyLe a b = true) (jsonReport exResults) := by
  constructor
  · rfl
  · decide

/-- C5 amended: after collection, only the human-readable Found and NotFound
sections are sorted by (category, site-name) — each is a sorted permutation
of the corresponding filter of the results; the JSON report and the error
section keep completion order unchanged. -/
theorem claim5_amended (results : List SiteResult) :
    List.Pairwise (fun a b => keyLe a b = true) (foundSection results) ∧
    (foundSection results).Perm (results.filter isFound) ∧
    List.Pairwise (fun a b => keyLe a b = true) (notFoundSection results) ∧
    (notFoundSection results).Perm (results.filter isNotFound) ∧
    jsonReport results = results ∧
    errorSection results = results.filter isError := by
  refine ⟨?_, List.mergeSort_perm _ _, ?_, List.mergeSort_perm _ _, rfl, rfl⟩
  · exact List.sorted_mergeSort keyLe_trans keyLe_total (results.filter isFound)
  · exact List.sorted_mergeSort keyLe_trans keyLe_total (results.filter isNotFound)

end Vidocq
